import Mathlib

/-!
# Smart RFP System — verification of the comparison-matrix core

Shallow embedding of the column classifier (`backend/services/column_classifier.py`),
the matrix endpoint (`backend/routers/proposals.py`, `get_proposal_matrix` and the
vendor-form part of `upload_proposal`) and the comparison-matrix builder
(`backend/src/agents/comparison_matrix_builder.py`), together with proofs of the
spec claims about them.

Modelling conventions:
* Python strings are `String`; a value that may be `None` is `Option String`.
* Python dicts holding row data are association lists `List (String × String)`
  with unique keys by construction; a JSON `null` entry is modelled as an absent
  key (every access path in the embedded code treats the two identically:
  `dict.get` yields `None` for both, and all uses go through `or`-style
  truthiness, `parse_number`, or `normalize_value`).
* Python numbers reached through `float(...)` are modelled as `ℚ`; exponent,
  `inf`/`nan` and underscore numeral forms — never produced by this data path —
  are not modelled.
* The `difflib.SequenceMatcher(...).ratio()` similarity is an explicit function
  parameter `sim : String → String → ℚ`; all claims about fuzzy matching concern
  the acceptance policy, not the metric itself.
-/

namespace SmartRFP

/-! ## Python-style helpers -/

/-- Truthiness of an optional string: `None` and `""` are falsy. -/
def pyTruthy : Option String → Bool
  | none => false
  | some s => s ≠ ""

/-- Python `a or b` where `a` is an optional string and the result is used as a string
(`None`/`""` fall through to `b`). -/
def orElseStr : Option String → String → String
  | none, b => b
  | some s, b => if s = "" then b else s

/-- Python `a or b` on two optional strings (`None`/`""` fall through to `b`). -/
def pyOrOpt : Option String → Option String → Option String
  | none, b => b
  | some s, b => if s = "" then b else some s

/-- Python `str(...)` applied to a string-or-`None` value (`str(None) = "None"`). -/
def pyStr : Option String → String
  | none => "None"
  | some s => s

/-- The whitespace characters Python `str.strip` removes. -/
def isSpaceChar (c : Char) : Bool :=
  c = ' ' ∨ c = '\t' ∨ c = '\n' ∨ c = '\r' ∨ c = '\x0b' ∨ c = '\x0c'

/-- Python `str.strip()`: drop leading and trailing whitespace. -/
def pyStrip (s : String) : String :=
  String.mk (((s.toList.dropWhile isSpaceChar).reverse.dropWhile isSpaceChar).reverse)

/-- ASCII uppercase of one character (the only case change this ASCII data
exercises). -/
def upperChar (c : Char) : Char :=
  if 'a' ≤ c ∧ c ≤ 'z' then Char.ofNat (c.toNat - 32) else c

/-- ASCII lowercase of one character. -/
def lowerChar (c : Char) : Char :=
  if 'A' ≤ c ∧ c ≤ 'Z' then Char.ofNat (c.toNat + 32) else c

/-- Python `str.upper()`. -/
def pyUpper (s : String) : String := String.mk (s.toList.map upperChar)

/-- Python `str.lower()`. -/
def pyLower (s : String) : String := String.mk (s.toList.map lowerChar)

/-- Does `s` start with `t`? -/
def listStarts : List Char → List Char → Bool
  | _, [] => true
  | [], _ :: _ => false
  | a :: s, b :: t => a = b && listStarts s t

/-- Does `t` occur inside `s`? -/
def listHasSub : List Char → List Char → Bool
  | [], t => t.isEmpty
  | a :: s, t => listStarts (a :: s) t || listHasSub s t

/-- Python substring test `t in s`. -/
def containsSub (s t : String) : Bool := listHasSub s.toList t.toList

/-! ## Row dictionaries (DB-level rows used by the router and the classifier) -/

/-- A row of `proposal_form_rows` / `proposal_form_data`: a JSON object mapping
column names to string values, modelled as an association list with unique keys. -/
abbrev DbRow := List (String × String)

/-- Python `row.get(key)`: `some` value when the key is present, `none` otherwise. -/
def dget (row : DbRow) (key : String) : Option String :=
  (row.find? (fun kv => kv.1 = key)).map (·.2)

/-- A stored proposal as seen by `get_proposal_matrix`: its id, contractor name
and extracted `proposal_form_data` rows. -/
structure DbProposal where
  id : Nat
  contractor : String
  proposal_form_data : List DbRow

/-- Source `get_vendor_row` (defined identically in `routers/proposals.py` and
`services/column_classifier.py`): first row of the vendor's form data whose
stripped `item_id` equals the stripped `str(item_id)` of the template row. -/
def get_vendor_row (p : DbProposal) (item_id : Option String) : Option DbRow :=
  p.proposal_form_data.find?
    (fun row => pyStrip ((dget row "item_id").getD "") = pyStrip (pyStr item_id))

/-! ## `normalize_value` and majority-voting classification
(`backend/services/column_classifier.py`) -/

/-- Source `normalize_value`: `None` ↦ `""`; otherwise strip, uppercase, and map the
sentinels `TBD`, `N/A`, `-`, `$-`, `""`, `NOT QUOTED` to `""`. -/
def normalize_value (v : Option String) : String :=
  match v with
  | none => ""
  | some s =>
    let t := pyUpper (pyStrip s)
    if t = "TBD" ∨ t = "N/A" ∨ t = "-" ∨ t = "$-" ∨ t = "" ∨ t = "NOT QUOTED" then ""
    else t

/-- Proposals that have extractable form data (`if p.get('proposal_form_data')`). -/
def proposalsWithData (ps : List DbProposal) : List DbProposal :=
  ps.filter (fun p => !p.proposal_form_data.isEmpty)

/-- The `(match_count, total_comparisons)` accumulation of
`classify_columns_majority_voting` for one column: for each template row with a
non-empty normalized value, for each proposal, if an `item_id`-matched vendor
row exists and its normalized value is non-empty, count the comparison and
(when the normalized values are equal) the match. -/
def columnCounts (rfp_rows : List DbRow) (ps : List DbProposal) (col : String) : ℕ × ℕ :=
  rfp_rows.foldl
    (fun acc row =>
      let rv := normalize_value (dget row col)
      if rv = "" then acc
      else
        ps.foldl
          (fun acc2 p =>
            match get_vendor_row p (dget row "item_id") with
            | none => acc2
            | some vr =>
              let vv := normalize_value (dget vr col)
              if vv = "" then acc2
              else (acc2.1 + (if rv = vv then 1 else 0), acc2.2 + 1))
          acc)
    (0, 0)

/-- Classification outcome of one column. -/
inductive ColumnClass
  | fixed
  | vendor
  | ambiguous
deriving DecidableEq

/-- The per-column decision of `classify_columns_majority_voting`: zero
comparisons default to FIXED; otherwise `ratio > threshold` is FIXED,
`ratio < 1 - threshold` is VENDOR, anything in between is AMBIGUOUS. -/
def classifyCounts (threshold : ℚ) (m t : ℕ) : ColumnClass :=
  if t = 0 then ColumnClass.fixed
  else
    let ratio : ℚ := (m : ℚ) / (t : ℚ)
    if ratio > threshold then ColumnClass.fixed
    else if ratio < 1 - threshold then ColumnClass.vendor
    else ColumnClass.ambiguous

/-- Classification of a column from the data (`classify_columns_majority_voting`
inner loop, applied to the proposals that have form data). -/
def classifyColumn (threshold : ℚ) (rfp_rows : List DbRow) (ps : List DbProposal)
    (col : String) : ColumnClass :=
  classifyCounts threshold (columnCounts rfp_rows ps col).1 (columnCounts rfp_rows ps col).2

/-- Source `all_columns`: the keys of the first template row, minus `values`. -/
def allColumns (rfp_rows : List DbRow) : List String :=
  match rfp_rows with
  | [] => []
  | row :: _ => (row.map (·.1)).filter (fun k => k ≠ "values")

/-- Result triple of `classify_columns_majority_voting`. -/
structure Classification where
  fixed_columns : List String
  vendor_columns : List String
  ambiguous_columns : List String
deriving DecidableEq

/-- Source `classify_columns_majority_voting`: empty template ⇒ empty result; no
proposal with data ⇒ every column FIXED; otherwise each column is appended to
exactly one of the three lists according to `classifyColumn` (the source loops
over the columns appending in order, which is the same as filtering). -/
def classify_columns_majority_voting (threshold : ℚ) (rfp_rows : List DbRow)
    (ps : List DbProposal) : Classification :=
  if rfp_rows.isEmpty then ⟨[], [], []⟩
  else
    let cols := allColumns rfp_rows
    let psd := proposalsWithData ps
    if psd.isEmpty then ⟨cols, [], []⟩
    else
      { fixed_columns := cols.filter (fun c => classifyColumn threshold rfp_rows psd c = ColumnClass.fixed)
        vendor_columns := cols.filter (fun c => classifyColumn threshold rfp_rows psd c = ColumnClass.vendor)
        ambiguous_columns := cols.filter (fun c => classifyColumn threshold rfp_rows psd c = ColumnClass.ambiguous) }

/-! ## Classification cache (`get_cached_classification`, `build_cache`) -/

/-- The persisted `comparison_matrix_cache` dictionary. Proposal ids are uninterpreted
tokens here, modelled as naturals (Python sorts them with `sorted`, we sort with
`List.insertionSort`, any correct sort gives the same canonical form). -/
structure ClassCache where
  proposal_ids : List Nat
  fixed_columns : List String
  vendor_columns : List String
deriving DecidableEq

/-- Python `sorted` on id lists. -/
def sortIds (l : List Nat) : List Nat := List.insertionSort (· ≤ ·) l

/-- Source `get_cached_classification`: no cache (falsy dict) ⇒ `none`; otherwise reuse
the cached columns iff the sorted cached ids equal the sorted current ids. -/
def get_cached_classification (cache : Option ClassCache) (current : List Nat) :
    Option (List String × List String) :=
  match cache with
  | none => none
  | some c =>
    if sortIds c.proposal_ids ≠ sortIds current then none
    else some (c.fixed_columns, c.vendor_columns)

/-- Source `build_cache`: store the sorted ids as the fingerprint. -/
def build_cache (fixed vendor : List String) (ids : List Nat) : ClassCache :=
  ⟨sortIds ids, fixed, vendor⟩

/-- The list `proposal_ids_with_data` as computed by `get_proposal_matrix`. -/
def proposalIdsWithData (ps : List DbProposal) : List Nat :=
  (proposalsWithData ps).map (·.id)

/-! ## Number parsing and currency formatting (`parse_number` and the
grand-total rendering in `get_proposal_matrix`) -/

/-- Numeric value of a list of decimal digit characters. -/
def digitsVal (cs : List Char) : ℕ := cs.foldl (fun a c => 10 * a + (c.toNat - 48)) 0

/-- Parse an unsigned decimal numeral (digits with at most one decimal point,
at least one digit) into a rational; the fragment of Python `float` grammar this
data path can produce. -/
def parseDecimal (cs : List Char) : Option ℚ :=
  let intPart := cs.takeWhile (· ≠ '.')
  match cs.dropWhile (· ≠ '.') with
  | [] =>
    if !intPart.isEmpty ∧ intPart.all (·.isDigit) then some (digitsVal intPart : ℚ) else none
  | _ :: frac =>
    if frac.any (· = '.') then none
    else if intPart.isEmpty ∧ frac.isEmpty then none
    else if intPart.all (·.isDigit) ∧ frac.all (·.isDigit) then
      some ((digitsVal intPart : ℚ) + (digitsVal frac : ℚ) / ((10 : ℚ) ^ frac.length))
    else none

/-- Python `float(s)` on the cleaned string: optional sign, then a decimal
numeral; failure is `none` (the `except ValueError` branch). -/
def parseFloat (s : String) : Option ℚ :=
  match s.toList with
  | [] => none
  | '+' :: cs => parseDecimal cs
  | '-' :: cs => (parseDecimal cs).map (fun q => -q)
  | cs => parseDecimal cs

/-- Source `cleaned = str(value).replace('$', '').replace(',', '').strip()`. -/
def cleanNumber (s : String) : String :=
  pyStrip (String.mk (s.toList.filter (fun c => c ≠ '$' ∧ c ≠ ',')))

/-- Source `parse_number` from `get_proposal_matrix`: `None`, `""` and the sentinels
`TBD`, `N/A`, `-`, `$-` (case-insensitive) yield `None`; otherwise strip `$`,
thousands separators and whitespace and parse as a float, `None` on failure. -/
def parse_number (value : Option String) : Option ℚ :=
  match value with
  | none => none
  | some s =>
    if s = "" ∨ pyUpper s = "TBD" ∨ pyUpper s = "N/A" ∨ pyUpper s = "-" ∨ pyUpper s = "$-" then
      none
    else parseFloat (cleanNumber s)

/-- Insert a thousands separator after every three characters of a reversed
digit string. -/
def groupRev : List Char → List Char
  | a :: b :: c :: d :: rest => a :: b :: c :: ',' :: groupRev (d :: rest)
  | l => l

/-- Decimal representation of a natural with thousands separators. -/
def natGrouped (n : ℕ) : String := String.mk ((groupRev (toString n).toList.reverse).reverse)

/-- Two-digit rendering of a number below 100. -/
def twoDigits (n : ℕ) : String := if n < 10 then "0" ++ toString n else toString n

/-- Python `f"${x:,.2f}"`: dollar sign, optional minus, thousands-separated
integer part, two decimals (exact on whole-cent amounts, the only ones the
claims touch). -/
def formatCurrency (q : ℚ) : String :=
  let c : ℤ := round (q * 100)
  if c < 0 then "$-" ++ natGrouped ((-c).toNat / 100) ++ "." ++ twoDigits ((-c).toNat % 100)
  else "$" ++ natGrouped (c.toNat / 100) ++ "." ++ twoDigits (c.toNat % 100)

/-! ## The matrix endpoint (`get_proposal_matrix` in `routers/proposals.py`) -/

/-- The `total_column` search: first vendor column whose name contains the
case-insensitive substring `"total"`. -/
def findTotalColumn (vendor_columns : List String) : Option String :=
  vendor_columns.find? (fun c => containsSub (pyLower c) "total")

/-- The value fed to `parse_number` for one template row and one vendor:
nothing when the vendor row is unmatched, otherwise
`vendor_row.get(total_column) or vendor_row.get('total')`. -/
def rowTotalCell (tc : String) (p : DbProposal) (rfp_row : DbRow) : Option String :=
  match get_vendor_row p (dget rfp_row "item_id") with
  | none => none
  | some vr => pyOrOpt (dget vr tc) (dget vr "total")

/-- The running grand total for one vendor: the endpoint adds
`parse_number(...)` for each template row whose vendor row matched and parsed,
starting from `0.0`. -/
def vendorGrandTotal (tc : String) (p : DbProposal) (rfp_rows : List DbRow) : ℚ :=
  rfp_rows.foldl
    (fun acc row =>
      match parse_number (rowTotalCell tc p row) with
      | some x => acc + x
      | none => acc)
    0

/-- One row of the endpoint's matrix: the `is_grand_total` flag, the fixed
values (possibly null), and per proposal id the vendor column cells. -/
structure MatrixRow where
  is_grand_total : Bool
  fixed_values : List (String × Option String)
  vendor_values : List (Nat × List (String × String))
deriving DecidableEq

/-- One vendor cell of a data row: `vendor_row.get(col) or "-"` when a vendor
row matched, the sentinel `"Not Quoted"` otherwise. -/
def vendorCell (vendor_row : Option DbRow) (col : String) : String :=
  match vendor_row with
  | some vr =>
    match dget vr col with
    | some s => if s = "" then "-" else s
    | none => "-"
  | none => "Not Quoted"

/-- One data row of the endpoint matrix. -/
def buildDataRow (fixed_columns vendor_columns : List String) (ps : List DbProposal)
    (rfp_row : DbRow) : MatrixRow :=
  { is_grand_total := false
    fixed_values := fixed_columns.map (fun col => (col, dget rfp_row col))
    vendor_values := ps.map (fun p =>
      (p.id, vendor_columns.map (fun col =>
        (col, vendorCell (get_vendor_row p (dget rfp_row "item_id")) col)))) }

/-- The endpoint's grand-total row: `"GRAND TOTAL"` in the `description` /
`item_id` fixed cells, and per vendor the formatted grand total in the total
column (when one exists). -/
def grandTotalRow (fixed_columns vendor_columns : List String) (ps : List DbProposal)
    (rfp_rows : List DbRow) : MatrixRow :=
  { is_grand_total := true
    fixed_values := fixed_columns.map (fun col =>
      (col, some (if col = "description" ∨ col = "item_id" then "GRAND TOTAL" else "")))
    vendor_values := ps.map (fun p =>
      (p.id,
        match findTotalColumn vendor_columns with
        | some tc => [(tc, formatCurrency (vendorGrandTotal tc p rfp_rows))]
        | none => [])) }

/-- The matrix loop of `get_proposal_matrix`: one data row per template row,
then the grand-total row. -/
def matrixRows (fixed_columns vendor_columns : List String) (ps : List DbProposal)
    (rfp_rows : List DbRow) : List MatrixRow :=
  rfp_rows.map (buildDataRow fixed_columns vendor_columns ps)
    ++ [grandTotalRow fixed_columns vendor_columns ps rfp_rows]

/-- The `rows` field of the endpoint's response: empty (with a message) when
there are no template rows, otherwise the matrix loop's output. -/
def endpointRows (fixed_columns vendor_columns : List String) (ps : List DbProposal)
    (rfp_rows : List DbRow) : List MatrixRow :=
  if rfp_rows.isEmpty then [] else matrixRows fixed_columns vendor_columns ps rfp_rows

/-! ## Per-vendor extraction at upload time (`upload_proposal` in
`routers/proposals.py`) -/

/-- The vendor-form extraction step of `upload_proposal`: `vendor_form_data`
starts as `[]`; a successful extraction replaces it, while any raised error is
caught (`except Exception as form_err`, non-fatal) leaving the empty list. -/
def uploadVendorFormData (extraction : Except String (List DbRow)) : List DbRow :=
  match extraction with
  | Except.ok rows => rows
  | Except.error _ => []

/-- Stored proposals produced by independent per-vendor uploads: each vendor's
stored form data is a function of that vendor's own extraction result only. -/
def storedProposals (inputs : List (Nat × String × Except String (List DbRow))) :
    List DbProposal :=
  inputs.map (fun t => ⟨t.1, t.2.1, uploadVendorFormData t.2.2⟩)

/-! ## The comparison-matrix builder
(`backend/src/agents/comparison_matrix_builder.py`)

`DiscoveredFormRow` (template) and `FilledFormRow` (vendor) share one shape
here; the filled row's non-optional `str` fields embed as `some _`, and every
use in the builder goes through the same truthiness checks for both. -/

/-- A form row: section / item id / description plus the dynamic `values`
dictionary (`section` is a Lean keyword, hence `sectionName`). -/
structure BFormRow where
  sectionName : Option String
  item_id : Option String
  description : Option String
  values : List (String × String)
deriving DecidableEq

/-- Source `VendorProposalData` as used by the builder. -/
structure BVendor where
  vendor_name : String
  filled_rows : List BFormRow
  grand_total : String
deriving DecidableEq

/-- Source `_get_value_insensitive`: empty dict ⇒ `""`; direct key match first, then
the first key equal up to case, else `""`. -/
def getValueInsensitive (values : List (String × String)) (key : String) : String :=
  match values.find? (fun kv => kv.1 = key) with
  | some kv => kv.2
  | none =>
    match values.find? (fun kv => pyLower kv.1 = pyLower key) with
    | some kv => kv.2
    | none => ""

/-- The exact-`item_id` lookup `vendor_lookups[vendor].get(rfp_row.item_id)`:
the lookup dict is built as `{row.item_id: row}`, so a duplicate `item_id` keeps
the last row; a template row without `item_id` finds nothing. -/
def lookupById (rows : List BFormRow) (iid : Option String) : Option BFormRow :=
  match iid with
  | none => none
  | some k => (rows.filter (fun r => r.item_id = some k)).getLast?

/-- The description used for fuzzy matching:
`row.description or get_value_insensitive(row.values, "Description") or ""`. -/
def rowDesc (r : BFormRow) : String :=
  orElseStr r.description (getValueInsensitive r.values "Description")

/-- The score each candidate row receives in `_find_best_match_row`. -/
def rowScore (sim : String → String → ℚ) (target : String) (r : BFormRow) : ℚ :=
  sim (pyLower target) (pyLower (rowDesc r))

/-- One candidate step of `_find_best_match_row`'s loop: a candidate with an
empty description is skipped; a strictly greater score replaces the current
best (so the first of equally-scored rows is kept). -/
def bestStep (sim : String → String → ℚ) (target : String) (acc : ℚ × Option BFormRow)
    (row : BFormRow) : ℚ × Option BFormRow :=
  if rowDesc row = "" then acc
  else if rowScore sim target row > acc.1 then (rowScore sim target row, some row)
  else acc

/-- The `(best_score, best_row)` accumulation of `_find_best_match_row`,
starting from `(0.0, None)`. -/
def bestFold (sim : String → String → ℚ) (target : String) (cands : List BFormRow) :
    ℚ × Option BFormRow :=
  cands.foldl (bestStep sim target) (0, none)

/-- Source `_find_best_match_row`: no candidates or no target description ⇒ `none`;
otherwise the best-scoring candidate, accepted only when its score is strictly
greater than `0.6`. -/
def findBestMatchRow (sim : String → String → ℚ) (rfp_row : BFormRow)
    (cands : List BFormRow) : Option BFormRow :=
  if cands.isEmpty then none
  else
    let target := rowDesc rfp_row
    if target = "" then none
    else
      let best := bestFold sim target cands
      if best.1 > 6 / 10 then best.2 else none

/-- The vendor-row selection of `build_comparison_dataframe` for one template
row (index `i`) and one vendor: exact `item_id` match, then fuzzy description
match, then positional fallback `filled_rows[i]` when `i` is in range. -/
def selectVendorRow (sim : String → String → ℚ) (vendor : BVendor) (rfp_row : BFormRow)
    (i : ℕ) : Option BFormRow :=
  match lookupById vendor.filled_rows rfp_row.item_id with
  | some r => some r
  | none =>
    match findBestMatchRow sim rfp_row vendor.filled_rows with
    | some r => some r
    | none => vendor.filled_rows.get? i

/-- One vendor cell of a builder data row: with a matched row, the vendor's
value, falling back to the template row's value, else `""`; with no match, the
template row's value, else `"-"` for columns containing `"Cost"` or `"Total"`
and `""` otherwise. -/
def renderVendorCell (rfp_row : BFormRow) (vendor_row : Option BFormRow)
    (v_col : String) : String :=
  match vendor_row with
  | some vr =>
    let val := getValueInsensitive vr.values v_col
    if val = "" then getValueInsensitive rfp_row.values v_col else val
  | none =>
    let val := getValueInsensitive rfp_row.values v_col
    if val ≠ "" then val
    else if containsSub v_col "Cost" || containsSub v_col "Total" then "-"
    else ""

/-- Source `ProposalFormStructure` as the builder uses it (the `tables` payload plays
no role in the builder and is omitted). -/
structure BStructure where
  form_title : String
  fixed_columns : List String
  vendor_columns : List String
  sections : List String
  rows : List BFormRow
deriving DecidableEq

/-- A section-header row: the section name in the first fixed column, every
other cell empty. -/
def sectionRow (fixed_cols vendor_cols : List String) (vps : List BVendor)
    (secName : String) : List (String × String) :=
  match fixed_cols with
  | [] => []
  | c0 :: restF =>
    (c0, secName) :: restF.map (fun c => (c, ""))
      ++ (vps.map (fun p => vendor_cols.map (fun v => (p.vendor_name ++ " " ++ v, "")))).flatten

/-- The fixed-column cells of a data row: `item_id` (or its `values` fallback)
in the first fixed column, the description (or its fallback) in the second;
further fixed columns are left unwritten by the source. -/
def dataRowFixedPart (fixed_cols : List String) (rfp_row : BFormRow) :
    List (String × String) :=
  match fixed_cols with
  | [] => []
  | c0 :: rest =>
    (c0, orElseStr rfp_row.item_id (getValueInsensitive rfp_row.values c0)) ::
      match rest with
      | [] => []
      | c1 :: _ => [(c1, orElseStr rfp_row.description (getValueInsensitive rfp_row.values c1))]

/-- The vendor cells of a data row for one vendor proposal `p`. -/
def dataRowVendorPart (sim : String → String → ℚ) (vendor_cols : List String)
    (p : BVendor) (rfp_row : BFormRow) (i : ℕ) : List (String × String) :=
  vendor_cols.map (fun v =>
    (p.vendor_name ++ " " ++ v, renderVendorCell rfp_row (selectVendorRow sim p rfp_row i) v))

/-- One iteration of the row loop of `build_comparison_dataframe`. The state is
`(current_section, proposal, rows)` where `proposal` is the Python variable
last bound by a `for proposal in vendor_proposals:` loop — the `vendor_lookups`
loop before the row loop, and again each section-header loop (Python loop
variables leak out of their loops). The data-row block sits inside
`if len(fixed_cols) > 1:` with no per-vendor loop of its own, so it aligns and
renders cells for that single leaked vendor only; reaching it with `proposal`
never bound (an empty vendor list) raises `NameError`. -/
def builderStep (sim : String → String → ℚ) (fixed_cols vendor_cols : List String)
    (vps : List BVendor)
    (st : Option String × Option BVendor × List (List (String × String)))
    (iRow : ℕ × BFormRow) :
    Except String (Option String × Option BVendor × List (List (String × String))) :=
  let cur := st.1
  let leaked := st.2.1
  let acc := st.2.2
  let i := iRow.1
  let row := iRow.2
  let hdr := pyTruthy row.sectionName && decide (row.sectionName ≠ cur)
  let cur2 := if hdr then row.sectionName else cur
  let leaked2 := if hdr then (match vps.getLast? with | some p => some p | none => leaked) else leaked
  let acc2 := if hdr then
      acc ++ [sectionRow fixed_cols vendor_cols vps (row.sectionName.getD "")]
    else acc
  if fixed_cols.length > 1 then
    match leaked2 with
    | none => Except.error "NameError: name proposal is not defined"
    | some p =>
      Except.ok (cur2, leaked2,
        acc2 ++ [dataRowFixedPart fixed_cols row ++ dataRowVendorPart sim vendor_cols p row i])
  else Except.ok (cur2, leaked2, acc2 ++ [dataRowFixedPart fixed_cols row])

/-- The builder's grand-total row: `"GRAND TOTAL"` in the second fixed column
(first when there is only one — the dict literal's duplicate key), and each
vendor's reported `grand_total` in its column whose lowercase name is exactly
`total`, `total amount`, `total cost` or `amount`. -/
def builderGrandTotalRow (fixed_cols vendor_cols : List String) (vps : List BVendor) :
    List (String × String) :=
  let base :=
    match fixed_cols with
    | [] => []
    | c0 :: rest =>
      match rest with
      | c1 :: _ => [(c0, ""), (c1, "GRAND TOTAL")]
      | [] => [(c0, "GRAND TOTAL")]
  base ++ (vps.map (fun p => vendor_cols.map (fun v =>
    (p.vendor_name ++ " " ++ v,
      if containsSub v "Total" || containsSub v "Amount" || containsSub v "Cost" then
        if pyLower v = "total" ∨ pyLower v = "total amount" ∨ pyLower v = "total cost" ∨
            pyLower v = "amount" then
          (if p.grand_total = "" then "" else p.grand_total)
        else ""
      else "")))).flatten

/-- Source `fixed_cols = rfp_structure.fixed_columns or ["Item", "Description"]`. -/
def builderFixedCols (s : BStructure) : List String :=
  if s.fixed_columns.isEmpty then ["Item", "Description"] else s.fixed_columns

/-- Source `vendor_cols = rfp_structure.vendor_columns or [...defaults...]`. -/
def builderVendorCols (s : BStructure) : List String :=
  if s.vendor_columns.isEmpty then ["Quantity", "Unit", "Unit Cost", "Total"]
  else s.vendor_columns

/-- The row-building part of `build_comparison_dataframe` for a structure with
rows: defaulted column lists, the enumerated row loop, then the grand-total
row. The row loop starts with `current_section = None` and with `proposal`
already bound by the `vendor_lookups` loop to the *last* vendor (unbound, i.e.
`none`, only when the vendor list is empty). `Except.error` is a raised Python
exception. -/
def builderRows (sim : String → String → ℚ) (s : BStructure) (vps : List BVendor) :
    Except String (List (List (String × String))) :=
  (s.rows.enum.foldlM (builderStep sim (builderFixedCols s) (builderVendorCols s) vps)
      (none, vps.getLast?, [])).map
    (fun st => st.2.2 ++ [builderGrandTotalRow (builderFixedCols s) (builderVendorCols s) vps])

/-! ## Consensus election (`_elect_structure_from_proposals`) -/

/-- The filled-row counts of the proposals. -/
def rowCounts (vps : List BVendor) : List ℕ := vps.map (fun p => p.filled_rows.length)

/-- The `Counter` frequency of one row count. -/
def freq (vps : List BVendor) (c : ℕ) : ℕ := (rowCounts vps).count c

/-- Source `most_common[0][1]`: the maximal frequency among the row counts. -/
def maxFreq (vps : List BVendor) : ℕ := ((rowCounts vps).map (freq vps)).foldr max 0

/-- The distinct row counts whose frequency is maximal. -/
def electCandidates (vps : List BVendor) : List ℕ :=
  (rowCounts vps).dedup.filter (fun c => freq vps c = maxFreq vps)

/-- Source `winner_count = max(candidates)`: the tie-break takes the largest row count
among the counts tied at maximal frequency. -/
def winnerCount (vps : List BVendor) : ℕ := (electCandidates vps).foldr max 0

/-- Source `next(p for p in vendor_proposals if len(p.filled_rows) == winner_count)`:
the first proposal in input order whose row count is the winner count. -/
def electWinner (vps : List BVendor) : Option BVendor :=
  if vps.isEmpty then none
  else vps.find? (fun p => p.filled_rows.length = winnerCount vps)

/-- Elected fixed columns: `Item` / `Description` according to the winner's
first row, defaulting to `["Item"]`. -/
def electedFixedCols (w : BVendor) : List String :=
  let base :=
    match w.filled_rows with
    | [] => []
    | sample :: _ =>
      (if pyTruthy sample.item_id || getValueInsensitive sample.values "Item" ≠ "" then
        ["Item"] else [])
      ++ (if pyTruthy sample.description ||
            getValueInsensitive sample.values "Description" ≠ "" then ["Description"] else [])
  if base.isEmpty then ["Item"] else base

/-- Elected vendor columns: the keys of the winner's first row's `values`,
defaulting to the standard four. -/
def electedVendorCols (w : BVendor) : List String :=
  let dyn :=
    match w.filled_rows with
    | [] => []
    | sample :: _ => sample.values.map (·.1)
  if dyn.isEmpty then ["Quantity", "Unit", "Unit Cost", "Total"] else dyn

/-- Elected sections: the sorted distinct truthy section labels of the winner's
rows. -/
def electedSections (w : BVendor) : List String :=
  List.insertionSort (fun a b => a ≤ b)
    ((w.filled_rows.filterMap
      (fun r => if pyTruthy r.sectionName then r.sectionName else none)).dedup)

/-- The object `_elect_structure_from_proposals` actually returns.
`ProposalFormStructure` declares no `rows` field and keeps pydantic's default
`extra='ignore'`, so the `rows=new_rows` keyword passed to its constructor is
silently dropped: the elected structure carries the winner's title, columns and
sections but *no* rows, and any later `.rows` access on it raises
`AttributeError`. -/
structure ElectedStructure where
  form_title : String
  fixed_columns : List String
  vendor_columns : List String
  sections : List String
deriving DecidableEq

/-- Source `_elect_structure_from_proposals`: elect the winner by majority row count
(largest-count tie-break among maximally frequent counts) and build the
surrogate structure from it — minus the `rows` keyword, which pydantic drops
(see `ElectedStructure`). -/
def elect_structure_from_proposals (vps : List BVendor) : Option ElectedStructure :=
  match electWinner vps with
  | none => none
  | some winner =>
    some
      { form_title := "Consensus Structure (from " ++ winner.vendor_name ++ ")"
        fixed_columns := electedFixedCols winner
        vendor_columns := electedVendorCols winner
        sections := electedSections winner }

/-- Source `build_comparison_dataframe`: with no structure or no rows, elect one from
the proposals, raising `ValueError` when that fails too. A successful election
does not help this function: the elected structure has no `rows` attribute, so
the row loop's `rfp_structure.rows` raises `AttributeError`. -/
def build_comparison_dataframe (sim : String → String → ℚ)
    (rfp_structure : Option BStructure) (vps : List BVendor) :
    Except String (List (List (String × String))) :=
  let st :=
    match rfp_structure with
    | some s => if s.rows.isEmpty then none else some s
    | none => none
  match st with
  | some s => builderRows sim s vps
  | none =>
    match elect_structure_from_proposals vps with
    | some _ =>
      Except.error "AttributeError: ProposalFormStructure object has no attribute rows"
    | none => Except.error "ValueError: Cannot build comparison"

/-! ## Theorems -/

/-- The three-way decision on positive totals, spelled out. -/
theorem classifyCounts_pos (m t : ℕ) (ht : t ≠ 0) :
    ((m : ℚ) / (t : ℚ) > 1 / 2 → classifyCounts (1 / 2) m t = ColumnClass.fixed) ∧
    ((m : ℚ) / (t : ℚ) = 1 / 2 → classifyCounts (1 / 2) m t = ColumnClass.ambiguous) ∧
    ((m : ℚ) / (t : ℚ) < 1 / 2 → classifyCounts (1 / 2) m t = ColumnClass.vendor) := by
  unfold classifyCounts
  rw [if_neg ht]
  have h12 : (1 : ℚ) - 1 / 2 = 1 / 2 := by norm_num
  refine ⟨fun h => ?_, fun h => ?_, fun h => ?_⟩
  · rw [if_pos h]
  · rw [if_neg (by simp [h]), if_neg (by rw [h12, h]; exact lt_irrefl _)]
  · rw [if_neg (by exact not_lt.mpr h.le), if_pos (by rw [h12]; exact h)]

/-- C5: with the default threshold `0.5` and a positive comparison count, a
match ratio strictly above `1/2` classifies the column FIXED, a ratio of
exactly `1/2` classifies it AMBIGUOUS (not FIXED), and a ratio strictly below
`1/2` classifies it VENDOR. -/
theorem claim_C5_majority_threshold (rfp_rows : List DbRow) (ps : List DbProposal)
    (col : String) (ht : (columnCounts rfp_rows ps col).2 ≠ 0) :
    (((columnCounts rfp_rows ps col).1 : ℚ) / ((columnCounts rfp_rows ps col).2 : ℚ) > 1 / 2 →
        classifyColumn (1 / 2) rfp_rows ps col = ColumnClass.fixed) ∧
    (((columnCounts rfp_rows ps col).1 : ℚ) / ((columnCounts rfp_rows ps col).2 : ℚ) = 1 / 2 →
        classifyColumn (1 / 2) rfp_rows ps col = ColumnClass.ambiguous) ∧
    (((columnCounts rfp_rows ps col).1 : ℚ) / ((columnCounts rfp_rows ps col).2 : ℚ) < 1 / 2 →
        classifyColumn (1 / 2) rfp_rows ps col = ColumnClass.vendor) := by
  unfold classifyColumn
  exact classifyCounts_pos _ _ ht

/-- Witness for C5: one template row and one matching vendor row with equal
`desc` values give `(match_count, total_comparisons) = (1, 1)`, ratio `1 > 1/2`,
hence FIXED. -/
theorem claim_C5_witness :
    classifyColumn (1 / 2) [[("item_id", "1"), ("desc", "Wall repair")]]
      [⟨7, "A", [[("item_id", "1"), ("desc", "Wall repair")]]⟩] "desc" = ColumnClass.fixed := by
  have h := claim_C5_majority_threshold [[("item_id", "1"), ("desc", "Wall repair")]]
    [⟨7, "A", [[("item_id", "1"), ("desc", "Wall repair")]]⟩] "desc" (by decide)
  refine h.1 ?_
  have hc : columnCounts [[("item_id", "1"), ("desc", "Wall repair")]]
      [⟨7, "A", [[("item_id", "1"), ("desc", "Wall repair")]]⟩] "desc" = (1, 1) := by decide
  rw [hc]
  norm_num

/-- C8: a column that accumulates zero valid comparisons (every template or
vendor value being `None`, empty, or one of the case-insensitive sentinels
`TBD`, `N/A`, `-`, `$-`, `NOT QUOTED`) is classified FIXED, both by the
per-column decision and in the full majority-voting result. -/
theorem claim_C8_zero_comparisons_fixed (threshold : ℚ) (rfp_rows : List DbRow)
    (ps : List DbProposal) (col : String)
    (h0 : (columnCounts rfp_rows (proposalsWithData ps) col).2 = 0) :
    classifyColumn threshold rfp_rows (proposalsWithData ps) col = ColumnClass.fixed ∧
    (rfp_rows ≠ [] → col ∈ allColumns rfp_rows →
      col ∈ (classify_columns_majority_voting threshold rfp_rows ps).fixed_columns) := by
  have hfix : classifyColumn threshold rfp_rows (proposalsWithData ps) col = ColumnClass.fixed := by
    unfold classifyColumn classifyCounts
    rw [h0]
    simp
  refine ⟨hfix, fun hne hmem => ?_⟩
  unfold classify_columns_majority_voting
  rw [if_neg (by simpa using hne)]
  by_cases hp : (proposalsWithData ps).isEmpty
  · rw [if_pos hp]
    exact hmem
  · rw [if_neg hp]
    simpa [List.mem_filter, hmem] using hfix

/-- Witness for C8: template value `TBD` against vendor value `n/a` on the
matched row — zero comparisons, so the `cost` column lands in FIXED. -/
theorem claim_C8_witness :
    classifyColumn (1 / 2) [[("item_id", "1"), ("cost", "TBD")]]
      (proposalsWithData [⟨3, "A", [[("item_id", "1"), ("cost", "n/a")]]⟩]) "cost" =
      ColumnClass.fixed ∧
    "cost" ∈ (classify_columns_majority_voting (1 / 2) [[("item_id", "1"), ("cost", "TBD")]]
      [⟨3, "A", [[("item_id", "1"), ("cost", "n/a")]]⟩]).fixed_columns := by
  have h := claim_C8_zero_comparisons_fixed (1 / 2) [[("item_id", "1"), ("cost", "TBD")]]
    [⟨3, "A", [[("item_id", "1"), ("cost", "n/a")]]⟩] "cost" (by decide)
  exact ⟨h.1, h.2 (by decide) (by decide)⟩

/-- Sorting with `sortIds` is a permutation of the input. -/
theorem sortIds_perm (l : List Nat) : List.Perm (sortIds l) l :=
  List.perm_insertionSort _ l

/-- The output of `sortIds` is sorted. -/
theorem sortIds_sorted (l : List Nat) : List.Sorted (· ≤ ·) (sortIds l) :=
  List.sorted_insertionSort _ l

/-- Permutation-equal id lists sort identically. -/
theorem sortIds_eq_of_perm {l l' : List Nat} (h : List.Perm l l') : sortIds l = sortIds l' :=
  List.eq_of_perm_of_sorted ((sortIds_perm l).trans (h.trans (sortIds_perm l').symm))
    (sortIds_sorted l) (sortIds_sorted l')

/-- Sorting is idempotent. -/
theorem sortIds_idem (l : List Nat) : sortIds (sortIds l) = sortIds l :=
  sortIds_eq_of_perm (sortIds_perm l)

/-- The cache check with a present cache, as a single conditional. -/
theorem get_cached_some (c : ClassCache) (ids : List Nat) :
    get_cached_classification (some c) ids =
      if sortIds c.proposal_ids = sortIds ids then some (c.fixed_columns, c.vendor_columns)
      else none := by
  unfold get_cached_classification
  by_cases h : sortIds c.proposal_ids = sortIds ids
  · simp [h]
  · simp [h]

/-- C6: the cached classification is reused iff the sorted current id list
equals the sorted cached fingerprint; a cache written by `build_cache` for the
current proposal-ids-with-data is therefore hit on the same set, reordering the
ids never invalidates it, and any set-membership difference does invalidate it. -/
theorem claim_C6_cache_fingerprint (c : ClassCache) (ids : List Nat) :
    (get_cached_classification (some c) ids = some (c.fixed_columns, c.vendor_columns) ↔
      sortIds c.proposal_ids = sortIds ids) ∧
    (∀ ids', List.Perm ids ids' →
      get_cached_classification (some c) ids = get_cached_classification (some c) ids') ∧
    (∀ x, ¬(x ∈ c.proposal_ids ↔ x ∈ ids) → get_cached_classification (some c) ids = none) ∧
    (∀ f v ps, get_cached_classification (some (build_cache f v (proposalIdsWithData ps)))
      (proposalIdsWithData ps) = some (f, v)) := by
  refine ⟨?_, ?_, ?_, ?_⟩
  · rw [get_cached_some]
    by_cases hs : sortIds c.proposal_ids = sortIds ids
    · simp [hs]
    · simp [hs]
  · intro ids' hperm
    rw [get_cached_some, get_cached_some, sortIds_eq_of_perm hperm]
  · intro x hx
    rw [get_cached_some, if_neg]
    intro hs
    exact hx (((sortIds_perm c.proposal_ids).symm.trans
      (hs ▸ sortIds_perm ids)).mem_iff)
  · intro f v ps
    rw [get_cached_some]
    simp [build_cache, sortIds_idem]

/-- Witness for C6: a concrete cache over ids `[2, 1]` is hit by the reordered
current ids `[1, 2]` and missed once id `3` joins. -/
theorem claim_C6_witness :
    get_cached_classification (some ⟨[2, 1], ["desc"], ["total"]⟩) [1, 2] =
      some (["desc"], ["total"]) ∧
    get_cached_classification (some ⟨[2, 1], ["desc"], ["total"]⟩) [1, 2, 3] = none := by
  constructor
  · exact (claim_C6_cache_fingerprint ⟨[2, 1], ["desc"], ["total"]⟩ [1, 2]).1.mpr (by decide)
  · exact (claim_C6_cache_fingerprint ⟨[2, 1], ["desc"], ["total"]⟩ [1, 2, 3]).2.2.1 3
      (by decide)

/-- The maximum of a non-empty list of naturals (Python `max`) is attained. -/
theorem foldr_max_mem : ∀ l : List ℕ, l ≠ [] → l.foldr max 0 ∈ l := by
  intro l
  induction l with
  | nil => intro h; exact absurd rfl h
  | cons a t ih =>
    intro _
    by_cases ht : t = []
    · subst ht; simp
    · rcases max_cases a (t.foldr max 0) with ⟨hmax, _⟩ | ⟨hmax, _⟩
      · simp only [List.foldr_cons, hmax]
        exact List.mem_cons_self a t
      · simp only [List.foldr_cons, hmax]
        exact List.mem_cons_of_mem a (ih ht)

/-- The winning row count of the election is the row count of some proposal. -/
theorem winnerCount_mem (vps : List BVendor) (h : vps ≠ []) :
    winnerCount vps ∈ rowCounts vps := by
  have hrc : rowCounts vps ≠ [] := by
    simpa [rowCounts] using h
  have h1 : maxFreq vps ∈ (rowCounts vps).map (freq vps) := by
    apply foldr_max_mem
    simpa using hrc
  obtain ⟨c, hc_mem, hc_eq⟩ := List.mem_map.1 h1
  have hcand : c ∈ electCandidates vps := by
    unfold electCandidates
    rw [List.mem_filter]
    exact ⟨List.mem_dedup.2 hc_mem, by simp [hc_eq]⟩
  have h2 : winnerCount vps ∈ electCandidates vps := by
    apply foldr_max_mem
    intro hemp
    rw [hemp] at hcand
    exact absurd hcand (List.not_mem_nil c)
  unfold electCandidates at h2
  exact List.mem_dedup.1 (List.mem_filter.1 h2).1

/-- A `find?` hit is the first element satisfying the predicate. -/
theorem find?_first {α : Type} (p : α → Bool) :
    ∀ (l : List α) (x : α), l.find? p = some x →
      ∃ i, l.get? i = some x ∧ p x = true ∧
        ∀ j, j < i → ∀ y, l.get? j = some y → p y = false := by
  intro l
  induction l with
  | nil => intro x hx; simp [List.find?] at hx
  | cons a t ih =>
    intro x hx
    by_cases hpa : p a = true
    · rw [List.find?_cons_of_pos _ hpa] at hx
      obtain rfl : a = x := by injection hx
      exact ⟨0, rfl, hpa, fun j hj => absurd hj (Nat.not_lt_zero j)⟩
    · rw [List.find?_cons_of_neg _ hpa] at hx
      obtain ⟨i, hget, hpx, hprev⟩ := ih x hx
      refine ⟨i + 1, by simpa using hget, hpx, ?_⟩
      intro j hj y hy
      cases j with
      | zero =>
        obtain rfl : a = y := by simpa using hy
        exact Bool.eq_false_iff.2 hpa
      | succ j' =>
        exact hprev j' (Nat.lt_of_succ_lt_succ hj) y (by simpa using hy)

/-- C10: the consensus election returns the first proposal, in input-list
order, whose filled-row count equals the winning count — a deterministic
function of the input order. -/
theorem claim_C10_election_first_in_order (vps : List BVendor) (h : vps ≠ []) :
    ∃ w i, electWinner vps = some w ∧ vps.get? i = some w ∧
      w.filled_rows.length = winnerCount vps ∧
      ∀ j, j < i → ∀ y, vps.get? j = some y →
        y.filled_rows.length ≠ winnerCount vps := by
  obtain ⟨p, hp_mem, hp_len⟩ := List.mem_map.1 (by simpa [rowCounts] using winnerCount_mem vps h)
  have hsome : (vps.find? (fun q => q.filled_rows.length = winnerCount vps)).isSome := by
    rw [List.find?_isSome]
    exact ⟨p, hp_mem, by simp [hp_len]⟩
  obtain ⟨w, hw⟩ := Option.isSome_iff_exists.1 hsome
  obtain ⟨i, hget, hpx, hprev⟩ := find?_first _ vps w hw
  refine ⟨w, i, ?_, hget, by simpa using hpx, ?_⟩
  · unfold electWinner
    rw [if_neg (by simpa using h)]
    exact hw
  · intro j hj y hy
    simpa using hprev j hj y hy

/-- Witness for C10: two one-row vendors; the election returns the first. -/
theorem claim_C10_witness :
    ∃ w i, electWinner [⟨"A", [], ""⟩, ⟨"B", [], ""⟩] = some w ∧
      ([(⟨"A", [], ""⟩ : BVendor), ⟨"B", [], ""⟩]).get? i = some w ∧
      w.filled_rows.length = winnerCount [⟨"A", [], ""⟩, ⟨"B", [], ""⟩] ∧
      ∀ j, j < i → ∀ y, ([(⟨"A", [], ""⟩ : BVendor), ⟨"B", [], ""⟩]).get? j = some y →
        y.filled_rows.length ≠ winnerCount [⟨"A", [], ""⟩, ⟨"B", [], ""⟩] :=
  claim_C10_election_first_in_order [⟨"A", [], ""⟩, ⟨"B", [], ""⟩] (by simp)

/-- A generic one-line-item row used in the election examples. -/
def exRow : BFormRow := ⟨none, some "1", some "line item", []⟩

/-- Counterexample to C3: with filled-row counts 20, 20 and 25 the election
picks the *20-row* vendor (the most frequent count wins outright; there is no
frequency tie with the 25-row vendor), so the surrogate structure is built from
Alpha, not from the 25-row vendor as the claim states — and its 25 rows cannot
"become the template rows" in any case, since the elected structure carries no
rows at all (pydantic drops the `rows` keyword). -/
theorem claim_C3_counterexample :
    (electWinner
        [⟨"Alpha", List.replicate 20 exRow, ""⟩, ⟨"Beta", List.replicate 20 exRow, ""⟩,
          ⟨"Gamma", List.replicate 25 exRow, ""⟩]).map
        (fun p => (p.vendor_name, p.filled_rows.length)) = some ("Alpha", 20) ∧
    (electWinner
        [⟨"Alpha", List.replicate 20 exRow, ""⟩, ⟨"Beta", List.replicate 20 exRow, ""⟩,
          ⟨"Gamma", List.replicate 25 exRow, ""⟩]).map (fun p => p.filled_rows.length) ≠
      some 25 ∧
    (elect_structure_from_proposals
        [⟨"Alpha", List.replicate 20 exRow, ""⟩, ⟨"Beta", List.replicate 20 exRow, ""⟩,
          ⟨"Gamma", List.replicate 25 exRow, ""⟩]).map (fun s => s.form_title) =
      some "Consensus Structure (from Alpha)" := by
  refine ⟨by decide, by decide, by decide⟩

/-- C3 (amended): over three proposals whose filled-row counts are `n`, `n`,
`m` with `m ≠ n`, the election elects the *first* vendor with `n` rows — the
most frequent count wins; the largest-row-count tie-break only applies among
counts tied at the maximal frequency. The surrogate structure is titled and
shaped (fixed/vendor columns, sections) from that winner; it carries no
template rows, the `rows` keyword being dropped by pydantic. -/
theorem claim_C3_majority_wins (p1 p2 p3 : BVendor) (n m : ℕ)
    (h1 : p1.filled_rows.length = n) (h2 : p2.filled_rows.length = n)
    (h3 : p3.filled_rows.length = m) (hmn : m ≠ n) :
    electWinner [p1, p2, p3] = some p1 ∧
    elect_structure_from_proposals [p1, p2, p3] =
      some ⟨"Consensus Structure (from " ++ p1.vendor_name ++ ")", electedFixedCols p1,
        electedVendorCols p1, electedSections p1⟩ := by
  have hrc : rowCounts [p1, p2, p3] = [n, n, m] := by
    simp [rowCounts, h1, h2, h3]
  have hfn : freq [p1, p2, p3] n = 2 := by
    simp [freq, hrc, List.count_cons, hmn]
  have hfm : freq [p1, p2, p3] m = 1 := by
    simp [freq, hrc, List.count_cons, hmn]
  have hmax : maxFreq [p1, p2, p3] = 2 := by
    simp [maxFreq, hrc, hfn, hfm]
  have hdedup : ([n, n, m] : List ℕ).dedup = [n, m] := by
    rw [List.dedup_cons_of_mem (by simp), List.dedup_cons_of_not_mem (by simp [Ne.symm hmn]),
      List.dedup_cons_of_not_mem (by simp), List.dedup_nil]
  have hcand : electCandidates [p1, p2, p3] = [n] := by
    unfold electCandidates
    rw [hrc, hdedup, hmax]
    simp [hfn, hfm]
  have hwin : winnerCount [p1, p2, p3] = n := by
    simp [winnerCount, hcand]
  have helect : electWinner [p1, p2, p3] = some p1 := by
    unfold electWinner
    rw [if_neg (by simp)]
    rw [List.find?_cons_of_pos _ (by simp [h1, hwin])]
  refine ⟨helect, ?_⟩
  unfold elect_structure_from_proposals
  rw [helect]

/-- Witness for C3's amended claim: the concrete 20 / 20 / 25 election. -/
theorem claim_C3_witness :
    electWinner
        [⟨"Alpha", List.replicate 20 exRow, ""⟩, ⟨"Beta", List.replicate 20 exRow, ""⟩,
          ⟨"Gamma", List.replicate 25 exRow, ""⟩] =
      some ⟨"Alpha", List.replicate 20 exRow, ""⟩ :=
  (claim_C3_majority_wins _ _ _ 20 25 (by simp) (by simp) (by simp) (by decide)).1

/-- C9: a vendor whose extraction raises is stored with an empty filled-row
set (the upload handler catches the error as non-fatal); each vendor's stored
data is a function of its own extraction result only, so other vendors are
unaffected; and a vendor with no form data matches no template row, so the
matrix renders the sentinel `"Not Quoted"` in every one of its vendor cells. -/
theorem claim_C9_extraction_failure_isolated
    (inputs : List (Nat × String × Except String (List DbRow))) (j : ℕ) (pid : Nat)
    (name e : String) (h : inputs.get? j = some (pid, name, Except.error e)) :
    (storedProposals inputs).get? j = some ⟨pid, name, []⟩ ∧
    (∀ k, (storedProposals inputs).get? k =
      (inputs.get? k).map (fun t => ⟨t.1, t.2.1, uploadVendorFormData t.2.2⟩)) ∧
    (∀ p : DbProposal, p.proposal_form_data = [] → ∀ (row : DbRow) (col : String),
      get_vendor_row p (dget row "item_id") = none ∧
      vendorCell (get_vendor_row p (dget row "item_id")) col = "Not Quoted") := by
  have hmap : ∀ k, (storedProposals inputs).get? k =
      (inputs.get? k).map (fun t => (⟨t.1, t.2.1, uploadVendorFormData t.2.2⟩ : DbProposal)) := by
    intro k
    unfold storedProposals
    exact List.get?_map _ _ _
  refine ⟨?_, hmap, ?_⟩
  · rw [hmap j, h]
    rfl
  · intro p hp row col
    have hnone : get_vendor_row p (dget row "item_id") = none := by
      unfold get_vendor_row
      rw [hp]
      rfl
    exact ⟨hnone, by rw [hnone]; rfl⟩

/-- Witness for C9: two uploads, the second failing; the stored data keeps the
first vendor's rows and records the failed vendor with zero rows, whose matrix
cell reads `"Not Quoted"`. -/
theorem claim_C9_witness :
    (storedProposals
        [(1, "Good", Except.ok [[("item_id", "1"), ("total", "$5")]]),
          (2, "Bad", Except.error "timeout")]).get? 1 = some ⟨2, "Bad", []⟩ ∧
    (storedProposals
        [(1, "Good", Except.ok [[("item_id", "1"), ("total", "$5")]]),
          (2, "Bad", Except.error "timeout")]).get? 0 =
      some ⟨1, "Good", [[("item_id", "1"), ("total", "$5")]]⟩ ∧
    vendorCell (get_vendor_row ⟨2, "Bad", []⟩ (dget [("item_id", "1")] "item_id")) "total" =
      "Not Quoted" := by
  have h := claim_C9_extraction_failure_isolated
    [(1, "Good", Except.ok [[("item_id", "1"), ("total", "$5")]]),
      (2, "Bad", Except.error "timeout")] 1 2 "Bad" "timeout" (by rfl)
  exact ⟨h.1, by rw [h.2.1 0]; rfl, (h.2.2 ⟨2, "Bad", []⟩ rfl [("item_id", "1")] "total").2⟩

/-- Summing with a fold that skips unparsable entries equals summing the
parsable values: skipped sentinels contribute nothing (they are not zeros). -/
theorem foldl_parse_sum {α : Type} (f : α → Option String) (l : List α) (a : ℚ) :
    l.foldl (fun acc row => match parse_number (f row) with | some x => acc + x | none => acc)
        a =
      a + ((l.map f).filterMap parse_number).sum := by
  induction l generalizing a with
  | nil => simp
  | cons v t ih =>
    cases hv : parse_number (f v) with
    | none => simp [List.filterMap_cons, hv, ih]
    | some x => simp [List.filterMap_cons, hv, ih, add_assoc]

/-- Evaluating `formatCurrency` through a known rounded cent amount. -/
theorem formatCurrency_round (q : ℚ) (z : ℤ) (h : round (q * 100) = z) :
    formatCurrency q =
      if z < 0 then "$-" ++ natGrouped ((-z).toNat / 100) ++ "." ++ twoDigits ((-z).toNat % 100)
      else "$" ++ natGrouped (z.toNat / 100) ++ "." ++ twoDigits (z.toNat % 100) := by
  unfold formatCurrency
  rw [h]

/-- C4: the grand total of a vendor is the sum of the parsable values the
endpoint reads for the total column over the template rows — the column is the
first vendor column containing the case-insensitive substring `"total"`; the
sentinels `None`, `""`, `TBD`, `N/A`, `-`, `$-` parse to nothing and are
skipped entirely; parsing tolerates `$`, thousands separators and whitespace
(`"$1,234.56"` and `"$500.00"` with a `"TBD"` between them sum to `1734.56`,
rendered `"$1,734.56"`); a vendor with no parsable values renders `"$0.00"`;
and the grand-total row carries exactly the formatted sum per vendor. -/
theorem claim_C4_grand_total (tc : String) (p : DbProposal) (rfp_rows : List DbRow)
    (vcols fixed : List String) (ps : List DbProposal)
    (htc : findTotalColumn vcols = some tc) :
    vendorGrandTotal tc p rfp_rows =
      ((rfp_rows.map (rowTotalCell tc p)).filterMap parse_number).sum ∧
    (tc ∈ vcols ∧ containsSub (pyLower tc) "total" = true) ∧
    (parse_number none = none ∧ parse_number (some "") = none ∧
      parse_number (some "TBD") = none ∧ parse_number (some "n/a") = none ∧
      parse_number (some "-") = none ∧ parse_number (some "$-") = none) ∧
    (parse_number (some "$1,234.56") = some (123456 / 100) ∧
      parse_number (some " $500.00 ") = some 500 ∧
      ([some "$1,234.56", some "TBD", some "$500.00"].filterMap parse_number).sum =
        173456 / 100 ∧
      formatCurrency (173456 / 100) = "$1,734.56") ∧
    ((∀ row ∈ rfp_rows, parse_number (rowTotalCell tc p row) = none) →
      formatCurrency (vendorGrandTotal tc p rfp_rows) = "$0.00") ∧
    (p ∈ ps → (p.id, [(tc, formatCurrency (vendorGrandTotal tc p rfp_rows))]) ∈
      (grandTotalRow fixed vcols ps rfp_rows).vendor_values) := by
  have hsum : vendorGrandTotal tc p rfp_rows =
      ((rfp_rows.map (rowTotalCell tc p)).filterMap parse_number).sum := by
    unfold vendorGrandTotal
    rw [foldl_parse_sum]
    simp
  have hparse1 : parse_number (some "$1,234.56") = some (123456 / 100) := by
    have h : parse_number (some "$1,234.56") =
        some ((digitsVal ['1', '2', '3', '4'] : ℚ) +
          (digitsVal ['5', '6'] : ℚ) / ((10 : ℚ) ^ (['5', '6'] : List Char).length)) := rfl
    rw [h, show digitsVal ['1', '2', '3', '4'] = 1234 from by decide,
      show digitsVal ['5', '6'] = 56 from by decide]
    norm_num
  have hparse2 : parse_number (some " $500.00 ") = some 500 := by
    have h : parse_number (some " $500.00 ") =
        some ((digitsVal ['5', '0', '0'] : ℚ) +
          (digitsVal ['0', '0'] : ℚ) / ((10 : ℚ) ^ (['0', '0'] : List Char).length)) := rfl
    rw [h, show digitsVal ['5', '0', '0'] = 500 from by decide,
      show digitsVal ['0', '0'] = 0 from by decide]
    norm_num
  have hparse3 : parse_number (some "$500.00") = some 500 := by
    have h : parse_number (some "$500.00") =
        some ((digitsVal ['5', '0', '0'] : ℚ) +
          (digitsVal ['0', '0'] : ℚ) / ((10 : ℚ) ^ (['0', '0'] : List Char).length)) := rfl
    rw [h, show digitsVal ['5', '0', '0'] = 500 from by decide,
      show digitsVal ['0', '0'] = 0 from by decide]
    norm_num
  refine ⟨hsum, ⟨List.mem_of_find?_eq_some htc, ?_⟩, ?_, ?_, ?_, ?_⟩
  · have := List.find?_some htc
    simpa using this
  · refine ⟨rfl, by decide, by decide, by decide, by decide, by decide⟩
  · refine ⟨hparse1, hparse2, ?_, ?_⟩
    · rw [List.filterMap_cons, List.filterMap_cons, List.filterMap_cons, hparse1, hparse3,
        show parse_number (some "TBD") = none from by decide]
      simp
      norm_num
    · rw [formatCurrency_round _ 173456 (by norm_num [round_eq])]
      decide
  · intro hall
    have hnil : (rfp_rows.map (rowTotalCell tc p)).filterMap parse_number = [] := by
      rw [List.filterMap_eq_nil]
      intro v hv
      obtain ⟨row, hrow, rfl⟩ := List.mem_map.1 hv
      exact hall row hrow
    rw [hsum, hnil]
    rw [show ((List.nil : List ℚ)).sum = 0 from rfl,
      formatCurrency_round _ 0 (by norm_num [round_eq])]
    decide
  · intro hp
    unfold grandTotalRow
    simp only [List.mem_map]
    exact ⟨p, hp, by rw [htc]⟩

/-- Witness for C4: the worked example from the spec — three template rows
whose total-column values are `$1,234.56`, `TBD` and `$500.00` grand-total to
`$1,734.56`. -/
theorem claim_C4_witness :
    vendorGrandTotal "Total" ⟨1, "A",
        [[("item_id", "1"), ("Total", "$1,234.56")], [("item_id", "2"), ("Total", "TBD")],
          [("item_id", "3"), ("Total", "$500.00")]]⟩
      [[("item_id", "1")], [("item_id", "2")], [("item_id", "3")]] = 173456 / 100 ∧
    formatCurrency (173456 / 100) = "$1,734.56" := by
  have h := claim_C4_grand_total "Total" ⟨1, "A",
      [[("item_id", "1"), ("Total", "$1,234.56")], [("item_id", "2"), ("Total", "TBD")],
        [("item_id", "3"), ("Total", "$500.00")]]⟩
    [[("item_id", "1")], [("item_id", "2")], [("item_id", "3")]] ["Total"] [] []
    (by decide)
  refine ⟨?_, h.2.2.2.1.2.2.2⟩
  rw [h.1]
  have hm : List.map (rowTotalCell "Total" ⟨1, "A",
      [[("item_id", "1"), ("Total", "$1,234.56")], [("item_id", "2"), ("Total", "TBD")],
        [("item_id", "3"), ("Total", "$500.00")]]⟩)
      [[("item_id", "1")], [("item_id", "2")], [("item_id", "3")]] =
      [some "$1,234.56", some "TBD", some "$500.00"] := rfl
  rw [hm]
  exact h.2.2.2.1.2.2.1

/-- A dictionary entry found by `lookup` is what the case-insensitive getter
returns (the direct-match branch fires first). -/
theorem getValueInsensitive_of_lookup (values : List (String × String)) (col v : String)
    (h : values.lookup col = some v) : getValueInsensitive values col = v := by
  have hfind : values.find? (fun kv => kv.1 = col) = some (col, v) := by
    induction values with
    | nil => simp [List.lookup] at h
    | cons kv t ih =>
      obtain ⟨k, w⟩ := kv
      by_cases hk : k = col
      · have hw : w = v := by
          rw [show List.lookup col ((k, w) :: t) = some w from by simp [List.lookup, hk]] at h
          injection h
        rw [List.find?_cons_of_pos _ (by simpa using hk)]
        rw [hw, hk]
      · rw [show List.lookup col ((k, w) :: t) = List.lookup col t from by
          simp [List.lookup, beq_false_of_ne (Ne.symm hk)]] at h
        rw [List.find?_cons_of_neg _ (by simpa using hk)]
        exact ih h
  unfold getValueInsensitive
  rw [hfind]

/-- Counterexample to C7: a matched row whose column is absent from both the
vendor row's and the template row's `values` renders the empty string, not the
claimed `"-"` (the `"-"` default belongs to the API endpoint's vendor cells and
to the builder's *unmatched* Cost/Total cells). -/
theorem claim_C7_counterexample :
    renderVendorCell ⟨none, some "1", some "Wall repair", []⟩
        (some ⟨none, some "1", some "Wall repair", []⟩) "Unit" = "" ∧
    renderVendorCell ⟨none, some "1", some "Wall repair", []⟩
        (some ⟨none, some "1", some "Wall repair", []⟩) "Unit" ≠ "-" := by
  constructor <;> decide

/-- C7 (amended): for a matched row, a vendor column's cell takes the vendor
row's `values` entry; when that is absent (or empty) it falls back to the
template row's own `values` entry; when absent in both it renders `""`. -/
theorem claim_C7_matched_cell_fallback (rfp_row vr : BFormRow) (col : String) :
    (∀ v, vr.values.lookup col = some v → getValueInsensitive vr.values col = v) ∧
    (getValueInsensitive vr.values col ≠ "" →
      renderVendorCell rfp_row (some vr) col = getValueInsensitive vr.values col) ∧
    (getValueInsensitive vr.values col = "" →
      renderVendorCell rfp_row (some vr) col = getValueInsensitive rfp_row.values col) ∧
    (getValueInsensitive vr.values col = "" → getValueInsensitive rfp_row.values col = "" →
      renderVendorCell rfp_row (some vr) col = "") := by
  refine ⟨fun v h => getValueInsensitive_of_lookup _ _ _ h, ?_, ?_, ?_⟩
  · intro h
    simp only [renderVendorCell]
    rw [if_neg h]
  · intro h
    simp only [renderVendorCell]
    rw [if_pos h]
  · intro h1 h2
    simp only [renderVendorCell]
    rw [if_pos h1, h2]

/-- Witness for C7: a present vendor value wins; an empty vendor `values`
falls back to the template's quantity. -/
theorem claim_C7_witness :
    renderVendorCell ⟨none, some "1", some "Wall repair", [("Qty", "10")]⟩
        (some ⟨none, some "1", some "Wall repair", [("Unit Cost", "$4.10")]⟩) "Unit Cost" =
      "$4.10" ∧
    renderVendorCell ⟨none, some "1", some "Wall repair", [("Qty", "10")]⟩
        (some ⟨none, some "1", some "Wall repair", [("Unit Cost", "$4.10")]⟩) "Qty" = "10" := by
  have h1 := (claim_C7_matched_cell_fallback ⟨none, some "1", some "Wall repair", [("Qty", "10")]⟩
    ⟨none, some "1", some "Wall repair", [("Unit Cost", "$4.10")]⟩ "Unit Cost").2.1 (by decide)
  have h2 := (claim_C7_matched_cell_fallback ⟨none, some "1", some "Wall repair", [("Qty", "10")]⟩
    ⟨none, some "1", some "Wall repair", [("Unit Cost", "$4.10")]⟩ "Qty").2.2.1 (by decide)
  rw [h1, h2]
  constructor <;> decide

/-- Invariant of the best-candidate fold: the score never decreases, it bounds
every valid candidate's score, and the accumulator is either untouched or holds
a candidate together with its exact score. -/
theorem bestFold_inv (sim : String → String → ℚ) (target : String) :
    ∀ (cands : List BFormRow) (acc : ℚ × Option BFormRow),
      acc.1 ≤ (cands.foldl (bestStep sim target) acc).1 ∧
      (∀ c ∈ cands, rowDesc c ≠ "" →
        rowScore sim target c ≤ (cands.foldl (bestStep sim target) acc).1) ∧
      (cands.foldl (bestStep sim target) acc = acc ∨
        ∃ row ∈ cands, rowDesc row ≠ "" ∧
          (cands.foldl (bestStep sim target) acc).2 = some row ∧
          (cands.foldl (bestStep sim target) acc).1 = rowScore sim target row) := by
  intro cands
  induction cands with
  | nil => intro acc; exact ⟨le_refl _, by simp, Or.inl rfl⟩
  | cons c t ih =>
    intro acc
    rw [List.foldl_cons]
    obtain ⟨ih1, ih2, ih3⟩ := ih (bestStep sim target acc c)
    by_cases hd : rowDesc c = ""
    · have hstep : bestStep sim target acc c = acc := by simp [bestStep, hd]
      rw [hstep] at ih1 ih2 ih3 ⊢
      refine ⟨ih1, ?_, ?_⟩
      · intro x hx hdx
        rcases List.mem_cons.1 hx with rfl | hx
        · exact absurd hd hdx
        · exact ih2 x hx hdx
      · rcases ih3 with h | ⟨row, hrow, hdr, h2, h1⟩
        · exact Or.inl h
        · exact Or.inr ⟨row, List.mem_cons_of_mem _ hrow, hdr, h2, h1⟩
    · by_cases hgt : rowScore sim target c > acc.1
      · have hstep : bestStep sim target acc c = (rowScore sim target c, some c) := by
          simp [bestStep, hd, hgt]
        rw [hstep] at ih1 ih2 ih3 ⊢
        refine ⟨le_trans (le_of_lt hgt) ih1, ?_, ?_⟩
        · intro x hx hdx
          rcases List.mem_cons.1 hx with rfl | hx
          · exact ih1
          · exact ih2 x hx hdx
        · rcases ih3 with h | ⟨row, hrow, hdr, h2, h1⟩
          · exact Or.inr ⟨c, List.mem_cons_self _ _, hd, by rw [h], by rw [h]⟩
          · exact Or.inr ⟨row, List.mem_cons_of_mem _ hrow, hdr, h2, h1⟩
      · have hstep : bestStep sim target acc c = acc := by simp [bestStep, hd, hgt]
        rw [hstep] at ih1 ih2 ih3 ⊢
        refine ⟨ih1, ?_, ?_⟩
        · intro x hx hdx
          rcases List.mem_cons.1 hx with rfl | hx
          · exact le_trans (not_lt.1 hgt) ih1
          · exact ih2 x hx hdx
        · rcases ih3 with h | ⟨row, hrow, hdr, h2, h1⟩
          · exact Or.inl h
          · exact Or.inr ⟨row, List.mem_cons_of_mem _ hrow, hdr, h2, h1⟩

/-- What `_find_best_match_row` returns: a returned row is a candidate with a
non-empty description whose score strictly exceeds `0.6` and is maximal among
the valid candidates; and when every valid candidate scores at most `0.6`
(exactly `0.6` included), nothing is returned. -/
theorem findBestMatchRow_spec (sim : String → String → ℚ) (rfp_row : BFormRow)
    (cands : List BFormRow) :
    (∀ r, findBestMatchRow sim rfp_row cands = some r →
      r ∈ cands ∧ rowDesc r ≠ "" ∧
      rowScore sim (rowDesc rfp_row) r > 6 / 10 ∧
      ∀ c ∈ cands, rowDesc c ≠ "" →
        rowScore sim (rowDesc rfp_row) c ≤ rowScore sim (rowDesc rfp_row) r) ∧
    ((∀ c ∈ cands, rowDesc c ≠ "" → rowScore sim (rowDesc rfp_row) c ≤ 6 / 10) →
      findBestMatchRow sim rfp_row cands = none) := by
  unfold findBestMatchRow
  by_cases hemp : cands.isEmpty
  · rw [if_pos hemp]
    exact ⟨fun r hr => absurd hr (by simp), fun _ => rfl⟩
  · rw [if_neg hemp]
    by_cases htgt : rowDesc rfp_row = ""
    · rw [if_pos htgt]
      exact ⟨fun r hr => absurd hr (by simp), fun _ => rfl⟩
    · rw [if_neg htgt]
      obtain ⟨inv1, inv2, inv3⟩ := bestFold_inv sim (rowDesc rfp_row) cands (0, none)
      constructor
      · intro r hr
        by_cases hth : (bestFold sim (rowDesc rfp_row) cands).1 > 6 / 10
        · rw [if_pos hth] at hr
          rcases inv3 with heq | ⟨row, hrow, hdr, h2, h1⟩
          · rw [show bestFold sim (rowDesc rfp_row) cands =
              cands.foldl (bestStep sim (rowDesc rfp_row)) (0, none) from rfl, heq] at hr
            exact absurd hr (by simp)
          · have hrr : r = row := by
              rw [show bestFold sim (rowDesc rfp_row) cands =
                cands.foldl (bestStep sim (rowDesc rfp_row)) (0, none) from rfl, h2] at hr
              injection hr.symm
            subst hrr
            refine ⟨hrow, hdr, ?_, ?_⟩
            · rw [← h1]
              exact hth
            · intro c hc hdc
              rw [← h1]
              exact inv2 c hc hdc
        · rw [if_neg hth] at hr
          exact absurd hr (by simp)
      · intro hall
        rw [if_neg]
        rcases inv3 with heq | ⟨row, hrow, hdr, h2, h1⟩
        · rw [show bestFold sim (rowDesc rfp_row) cands =
            cands.foldl (bestStep sim (rowDesc rfp_row)) (0, none) from rfl, heq]
          norm_num
        · rw [show bestFold sim (rowDesc rfp_row) cands =
            cands.foldl (bestStep sim (rowDesc rfp_row)) (0, none) from rfl, h1]
          exact not_lt.2 (hall row hrow hdr)

/-- Counterexample to C2: for a vendor with no rows, a template row is
unmatched at every stage, and the builder renders its `"Total"` cell as `"-"`
— not the claimed sentinel `"Not Quoted"` (which belongs to the API endpoint's
exact-match-only alignment). -/
theorem claim_C2_counterexample :
    selectVendorRow (fun _ _ => (0 : ℚ)) ⟨"V", [], ""⟩
        ⟨none, some "1", some "Roof repair", []⟩ 0 = none ∧
    renderVendorCell ⟨none, some "1", some "Roof repair", []⟩ none "Total" = "-" ∧
    renderVendorCell ⟨none, some "1", some "Roof repair", []⟩ none "Total" ≠ "Not Quoted" := by
  refine ⟨rfl, by decide, by decide⟩

/-- The builder's row loop keeps `proposal` equal to the last vendor of the
input list (the `vendor_lookups` loop binds it before the loop, section-header
loops re-bind it to the same vendor), and every data row it appends under
`len(fixed_cols) > 1` carries vendor cells for that single vendor only,
computed by `dataRowVendorPart` — that is, by `renderVendorCell` over
`selectVendorRow`. -/
theorem builderStep_lastVendor (sim : String → String → ℚ) (fc vc : List String)
    (vps : List BVendor)
    (st : Option String × Option BVendor × List (List (String × String)))
    (iRow : ℕ × BFormRow)
    (st1 : Option String × Option BVendor × List (List (String × String)))
    (h : builderStep sim fc vc vps st iRow = Except.ok st1)
    (hlast : st.2.1 = vps.getLast?) :
    st1.2.1 = vps.getLast? ∧
    (fc.length > 1 → ∃ p, vps.getLast? = some p ∧
      st1.2.2.getLast? =
        some (dataRowFixedPart fc iRow.2 ++ dataRowVendorPart sim vc p iRow.2 iRow.1)) := by
  simp only [builderStep] at h
  by_cases hhdr : (pyTruthy iRow.2.sectionName && decide (iRow.2.sectionName ≠ st.1)) = true
  · rw [if_pos hhdr, if_pos hhdr, if_pos hhdr] at h
    have hleak : (match vps.getLast? with | some p => some p | none => st.2.1) =
        vps.getLast? := by
      rw [hlast]
      rcases vps.getLast? with _ | p <;> rfl
    rw [hleak] at h
    by_cases hfc : fc.length > 1
    · rw [if_pos hfc] at h
      rcases hlk : vps.getLast? with _ | p
      · rw [hlk] at h
        exact absurd h (by simp)
      · rw [hlk] at h
        have hst := Except.ok.inj h
        refine ⟨by rw [← hst], fun _ => ⟨p, rfl, ?_⟩⟩
        rw [← hst]
        simp [List.getLast?_concat]
    · rw [if_neg hfc] at h
      have hst := Except.ok.inj h
      exact ⟨by rw [← hst], fun hc => absurd hc hfc⟩
  · rw [if_neg hhdr, if_neg hhdr, if_neg hhdr] at h
    rw [hlast] at h
    by_cases hfc : fc.length > 1
    · rw [if_pos hfc] at h
      rcases hlk : vps.getLast? with _ | p
      · rw [hlk] at h
        exact absurd h (by simp)
      · rw [hlk] at h
        have hst := Except.ok.inj h
        refine ⟨by rw [← hst], fun _ => ⟨p, rfl, ?_⟩⟩
        rw [← hst]
        simp [List.getLast?_concat]
    · rw [if_neg hfc] at h
      have hst := Except.ok.inj h
      exact ⟨by rw [← hst], fun hc => absurd hc hfc⟩

/-- Along any successful prefix of the row loop, the leaked `proposal` stays
the last vendor of the input list. -/
theorem builderFold_lastVendor (sim : String → String → ℚ) (fc vc : List String)
    (vps : List BVendor) :
    ∀ (lp : List (ℕ × BFormRow))
      (st st' : Option String × Option BVendor × List (List (String × String))),
      lp.foldlM (builderStep sim fc vc vps) st = Except.ok st' →
      st.2.1 = vps.getLast? → st'.2.1 = vps.getLast? := by
  intro lp
  induction lp with
  | nil =>
    intro st st' h hl
    have hst : st = st' := by
      simpa [List.foldlM, pure, Except.pure] using h
    rw [← hst]
    exact hl
  | cons a t ih =>
    intro st st' h hl
    rw [List.foldlM_cons] at h
    rcases hstep : builderStep sim fc vc vps st a with e | st1
    · rw [hstep] at h
      simp [bind, Except.bind] at h
    · rw [hstep] at h
      have hbind : t.foldlM (builderStep sim fc vc vps) st1 = Except.ok st' := by
        simpa [bind, Except.bind] using h
      exact ih st1 st' hbind (builderStep_lastVendor sim fc vc vps st a st1 hstep hl).1

/-- C2 (amended): the builder's alignment block runs once per template row for
the single leaked `proposal` variable — the last vendor of the input list, and
only when there is more than one fixed column — so vendor cells are aligned and
rendered for that vendor alone; no other vendor's cells are written in data
rows. For that vendor the selection priority is exact `item_id` match, then
the best fuzzy description match accepted only with score strictly above `0.6`
(a score of exactly `0.6` is rejected), then the row at the same ordinal
index; a still-unmatched row renders the template's own value for each vendor
column, defaulting to `"-"` for columns containing `"Cost"`/`"Total"` and `""`
otherwise. The API endpoint aligns every vendor, by exact `item_id` only, and
renders unmatched vendor cells as `"Not Quoted"`. -/
theorem claim_C2_alignment_priority (sim : String → String → ℚ) (vendor : BVendor)
    (rfp_row : BFormRow) (i : ℕ) (v_col : String) :
    (∀ r, lookupById vendor.filled_rows rfp_row.item_id = some r →
      selectVendorRow sim vendor rfp_row i = some r) ∧
    (lookupById vendor.filled_rows rfp_row.item_id = none →
      ∀ r, findBestMatchRow sim rfp_row vendor.filled_rows = some r →
        selectVendorRow sim vendor rfp_row i = some r) ∧
    (lookupById vendor.filled_rows rfp_row.item_id = none →
      findBestMatchRow sim rfp_row vendor.filled_rows = none →
      selectVendorRow sim vendor rfp_row i = vendor.filled_rows.get? i) ∧
    (∀ r, findBestMatchRow sim rfp_row vendor.filled_rows = some r →
      r ∈ vendor.filled_rows ∧ rowScore sim (rowDesc rfp_row) r > 6 / 10 ∧
      ∀ c ∈ vendor.filled_rows, rowDesc c ≠ "" →
        rowScore sim (rowDesc rfp_row) c ≤ rowScore sim (rowDesc rfp_row) r) ∧
    ((∀ c ∈ vendor.filled_rows, rowDesc c ≠ "" →
        rowScore sim (rowDesc rfp_row) c ≤ 6 / 10) →
      findBestMatchRow sim rfp_row vendor.filled_rows = none) ∧
    ((getValueInsensitive rfp_row.values v_col ≠ "" →
        renderVendorCell rfp_row none v_col = getValueInsensitive rfp_row.values v_col) ∧
      (getValueInsensitive rfp_row.values v_col = "" →
        renderVendorCell rfp_row none v_col =
          (if containsSub v_col "Cost" || containsSub v_col "Total" then "-" else ""))) ∧
    (∀ col, vendorCell none col = "Not Quoted") ∧
    (∀ (fc vc : List String) (vps : List BVendor)
      (st : Option String × Option BVendor × List (List (String × String)))
      (iRow : ℕ × BFormRow)
      (st1 : Option String × Option BVendor × List (List (String × String))),
      builderStep sim fc vc vps st iRow = Except.ok st1 → st.2.1 = vps.getLast? →
      st1.2.1 = vps.getLast? ∧
      (fc.length > 1 → ∃ p, vps.getLast? = some p ∧
        st1.2.2.getLast? =
          some (dataRowFixedPart fc iRow.2 ++ dataRowVendorPart sim vc p iRow.2 iRow.1))) ∧
    (∀ (fc vc : List String) (vps : List BVendor) (lp : List (ℕ × BFormRow))
      (st st' : Option String × Option BVendor × List (List (String × String))),
      lp.foldlM (builderStep sim fc vc vps) st = Except.ok st' →
      st.2.1 = vps.getLast? → st'.2.1 = vps.getLast?) := by
  obtain ⟨hspec1, hspec2⟩ := findBestMatchRow_spec sim rfp_row vendor.filled_rows
  refine ⟨?_, ?_, ?_, fun r hr => ⟨(hspec1 r hr).1, (hspec1 r hr).2.2.1, (hspec1 r hr).2.2.2⟩,
    hspec2, ⟨?_, ?_⟩, fun col => rfl,
    fun fc vc vps st iRow st1 h hl => builderStep_lastVendor sim fc vc vps st iRow st1 h hl,
    fun fc vc vps lp st st' h hl => builderFold_lastVendor sim fc vc vps lp st st' h hl⟩
  · intro r h
    unfold selectVendorRow
    rw [h]
  · intro h r hbest
    unfold selectVendorRow
    rw [h, hbest]
  · intro h hbest
    unfold selectVendorRow
    rw [h, hbest]
  · intro h
    simp only [renderVendorCell]
    rw [if_pos h]
  · intro h
    simp only [renderVendorCell]
    rw [if_neg (by simp [h])]

/-- Witness for C2: an exact `item_id` match is selected first. -/
theorem claim_C2_witness :
    selectVendorRow (fun _ _ => (0 : ℚ))
        ⟨"V", [⟨none, some "1", some "Wall", [("Total", "$4.10")]⟩], ""⟩
        ⟨none, some "1", some "Wall", []⟩ 0 =
      some ⟨none, some "1", some "Wall", [("Total", "$4.10")]⟩ :=
  (claim_C2_alignment_priority (fun _ _ => (0 : ℚ))
      ⟨"V", [⟨none, some "1", some "Wall", [("Total", "$4.10")]⟩], ""⟩
      ⟨none, some "1", some "Wall", []⟩ 0 "Total").1
    ⟨none, some "1", some "Wall", [("Total", "$4.10")]⟩ (by rfl)

/-- Number of section-header rows the builder inserts: one whenever a row's
truthy section label differs from the running current section. -/
def countSectionRows : Option String → List BFormRow → ℕ
  | _, [] => 0
  | cur, r :: rest =>
    if pyTruthy r.sectionName && decide (r.sectionName ≠ cur) then
      1 + countSectionRows r.sectionName rest
    else countSectionRows cur rest

/-- A successful builder step advances the current section as the header test
dictates and appends one data row plus (when the test fires) one section row. -/
theorem builderStep_ok (sim : String → String → ℚ) (fc vc : List String)
    (vps : List BVendor) (st : Option String × Option BVendor × List (List (String × String)))
    (iRow : ℕ × BFormRow) (st1 : Option String × Option BVendor × List (List (String × String)))
    (h : builderStep sim fc vc vps st iRow = Except.ok st1) :
    st1.1 = (if pyTruthy iRow.2.sectionName && decide (iRow.2.sectionName ≠ st.1) then
        iRow.2.sectionName else st.1) ∧
    st1.2.2.length = st.2.2.length +
      (if pyTruthy iRow.2.sectionName && decide (iRow.2.sectionName ≠ st.1) then 1 else 0) + 1 := by
  simp only [builderStep] at h
  by_cases hhdr : (pyTruthy iRow.2.sectionName && decide (iRow.2.sectionName ≠ st.1)) = true
  · rw [if_pos hhdr, if_pos hhdr, if_pos hhdr] at h
    rw [if_pos hhdr, if_pos hhdr]
    by_cases hfc : fc.length > 1
    · rw [if_pos hfc] at h
      rcases hlk : (match vps.getLast? with | some p => some p | none => st.2.1) with _ | p
      · rw [hlk] at h
        exact absurd h (by simp)
      · rw [hlk] at h
        have := Except.ok.inj h
        rw [← this]
        simp
    · rw [if_neg hfc] at h
      have := Except.ok.inj h
      rw [← this]
      simp
  · rw [if_neg hhdr, if_neg hhdr, if_neg hhdr] at h
    rw [if_neg hhdr, if_neg hhdr]
    by_cases hfc : fc.length > 1
    · rw [if_pos hfc] at h
      rcases hlk : st.2.1 with _ | p
      · rw [hlk] at h
        exact absurd h (by simp)
      · rw [hlk] at h
        have := Except.ok.inj h
        rw [← this]
        simp
    · rw [if_neg hfc] at h
      have := Except.ok.inj h
      rw [← this]
      simp

/-- Length invariant of the builder's row loop: a successful fold adds one row
per template row plus one row per section change. -/
theorem builderFold_length (sim : String → String → ℚ) (fc vc : List String)
    (vps : List BVendor) :
    ∀ (lp : List (ℕ × BFormRow))
      (st st' : Option String × Option BVendor × List (List (String × String))),
      lp.foldlM (builderStep sim fc vc vps) st = Except.ok st' →
      st'.2.2.length = st.2.2.length + lp.length + countSectionRows st.1 (lp.map (·.2)) := by
  intro lp
  induction lp with
  | nil =>
    intro st st' h
    have hst : st = st' := by
      simpa [List.foldlM, pure, Except.pure] using h
    rw [← hst]
    simp [countSectionRows]
  | cons a t ih =>
    intro st st' h
    rw [List.foldlM_cons] at h
    rcases hstep : builderStep sim fc vc vps st a with e | st1
    · rw [hstep] at h
      simp [bind, Except.bind] at h
    · rw [hstep] at h
      have hbind : t.foldlM (builderStep sim fc vc vps) st1 = Except.ok st' := by
        simpa [bind, Except.bind] using h
      obtain ⟨hcur, hlen⟩ := builderStep_ok sim fc vc vps st a st1 hstep
      have hrec := ih st1 st' hbind
      rw [hrec, hlen, hcur]
      by_cases hhdr : (pyTruthy a.2.sectionName && decide (a.2.sectionName ≠ st.1)) = true
      · simp only [List.map_cons, countSectionRows, hhdr, if_true, List.length_cons]
        omega
      · simp only [List.map_cons, countSectionRows, List.length_cons]
        rw [if_neg hhdr, if_neg hhdr, if_neg hhdr]
        omega

/-- C1: the API matrix has exactly one row per template row plus the
grand-total row; the dataframe builder in addition inserts one section-header
row per section change (and only matches the `len + 1` count when there are no
such changes), in both cases independently of how vendors matched. -/
theorem claim_C1_row_count (fixed vendor : List String) (ps : List DbProposal)
    (rfp_rows : List DbRow) (sim : String → String → ℚ) (s : BStructure)
    (vps : List BVendor) (out : List (List (String × String))) :
    (rfp_rows ≠ [] →
      (endpointRows fixed vendor ps rfp_rows).length = rfp_rows.length + 1) ∧
    (builderRows sim s vps = Except.ok out →
      out.length = s.rows.length + countSectionRows none s.rows + 1) := by
  constructor
  · intro hne
    unfold endpointRows matrixRows
    rw [if_neg (by simpa using hne)]
    simp
  · intro h
    unfold builderRows at h
    rcases hfold : s.rows.enum.foldlM
        (builderStep sim (builderFixedCols s) (builderVendorCols s) vps)
        (none, vps.getLast?, []) with e | st'
    · rw [hfold] at h
      simp [Except.map] at h
    · rw [hfold] at h
      have hout : out = st'.2.2 ++
          [builderGrandTotalRow (builderFixedCols s) (builderVendorCols s) vps] := by
        simp only [Except.map] at h
        exact (Except.ok.inj h).symm
      have hlen := builderFold_length sim _ _ vps s.rows.enum (none, vps.getLast?, []) st' hfold
      rw [hout]
      simp only [List.length_append, List.length_singleton]
      rw [hlen]
      simp [List.enum_length, List.enum_map_snd]

/-- Counterexample to C1: two template rows in two distinct sections make the
dataframe builder emit five rows (two section headers, two data rows and the
grand total), not `2 + 1 = 3` as the claim requires. -/
theorem claim_C1_counterexample :
    ((builderRows (fun _ _ => (0 : ℚ))
        ⟨"T", ["Item"], ["Total"], ["A", "B"],
          [⟨some "A", some "1", some "x", []⟩, ⟨some "B", some "2", some "y", []⟩]⟩
        []).toOption.map List.length) = some 5 ∧
    (2 : ℕ) + 1 ≠ 5 := by
  exact ⟨rfl, by decide⟩

/-- Witness for C1: a one-row template yields a two-row endpoint matrix, and a
sectionless two-row structure yields `2 + 0 + 1` builder rows. -/
theorem claim_C1_witness :
    (endpointRows ["item_id"] ["total"] [] [[("item_id", "1")]]).length = 1 + 1 :=
  (claim_C1_row_count ["item_id"] ["total"] [] [[("item_id", "1")]] (fun _ _ => (0 : ℚ))
    ⟨"T", [], [], [], []⟩ [] []).1 (by simp)

end SmartRFP
